import Mathlib

/-!
Shallow embedding of `src/oldsrc/darkCurrentCorrectChunkExposure.cc`
(LSST ip_isr dark-current correction sub-stage) and verification of the
specification claims about it.

Modelling conventions:
* C++ `float`/`double` pixel and scalar values are modelled by `ℚ`
  (exact arithmetic; division is total with `x / 0 = 0`).
* A `MaskedImage` bundles the pixel, variance and mask planes together
  with the image metadata (`DataProperty` list), as in afw.  The 2008
  afw `MaskedImage` copy is shallow (planes are shared via
  `shared_ptr`), so `exposure.getMaskedImage()` aliases the exposure's
  own buffers; the spec (§3, §5) describes the in-place scaling of the
  master accordingly.  The embedding makes this explicit by having the
  correction return the post-call states of both the chunk and the
  master image: an `Except.error` result means the caller's images are
  untouched, an `Except.ok (chunk', master')` result gives the new
  states of both.
* `boost::any` metadata values become the tagged type `MetaValue`;
  `boost::any_cast<const T>` is an exact-tag cast that fails with
  `badAnyCast` on any other tag.
* The C++ exceptions are mirrored by `IsrError`: `runtime`
  (spec: AlreadyCorrected), `lengthError` (spec: DimensionMismatch),
  `notFound` (spec: MissingMetadata), `rangeError`
  (spec: IdentityMismatch), `nameNotFound` (spec: MissingConfiguration,
  thrown by `Policy::getString`/`getDouble` on an absent key, per the
  spec §6 collaborator contract), and `badAnyCast` (boost).
-/

namespace IpIsr

/-- Errors thrown by the sub-stage, named after the C++ exception types
the source throws (plus the policy and boost failures). -/
inductive IsrError where
  | runtime (msg : String)
  | lengthError (msg : String)
  | notFound (msg : String)
  | rangeError (msg : String)
  | nameNotFound (key : String)
  | badAnyCast
deriving DecidableEq, Repr

/-- A `boost::any` metadata value with its stored C++ type tag. -/
inductive MetaValue where
  | vInt (i : Int)
  | vFloat (q : ℚ)
  | vDouble (q : ℚ)
  | vString (s : String)
deriving DecidableEq, Repr

/-- `lsst::daf::base::DataProperty` bag: ordered key/value list. -/
abbrev Metadata := List (String × MetaValue)

/-- `DataProperty::findUnique`: the value stored under the first
occurrence of the key, if any. -/
def findUnique (md : Metadata) (k : String) : Option MetaValue :=
  (md.find? (fun kv => kv.1 == k)).map (fun kv => kv.2)

/-- `DataProperty::addProperty` followed by `setValue` on the added
node (source lines 192-195 net effect): append the entry. -/
def addProperty (md : Metadata) (entry : String × MetaValue) : Metadata :=
  md ++ [entry]

/-- `boost::any_cast<const int>`: succeeds only on an `int`-tagged value. -/
def anyCastInt : MetaValue → Except IsrError Int
  | MetaValue.vInt i => Except.ok i
  | _ => Except.error IsrError.badAnyCast

/-- `boost::any_cast<const float>`: succeeds only on a `float`-tagged value. -/
def anyCastFloat : MetaValue → Except IsrError ℚ
  | MetaValue.vFloat q => Except.ok q
  | _ => Except.error IsrError.badAnyCast

/-- `lsst::afw::image::MaskedImage` together with its image metadata:
pixel plane, variance plane, mask plane (row-major sample lists) and
the per-image `DataProperty` bag. -/
structure MaskedImage where
  cols : Nat
  rows : Nat
  pixels : List ℚ
  variance : List ℚ
  mask : List Nat
  metadata : Metadata
deriving DecidableEq, Repr

/-- `MaskedImage::operator*=(scalar)`: multiply every sample of the
pixel and variance planes by the scalar (spec §4.4 wording). -/
def scaleMaskedImage (a : MaskedImage) (s : ℚ) : MaskedImage :=
  { a with pixels := a.pixels.map (fun x => x * s),
           variance := a.variance.map (fun x => x * s) }

/-- `MaskedImage::operator-=(MaskedImage)`: element-wise pixel
subtraction, additive variance combination, bitwise-OR of masks. -/
def subtractMaskedImage (a b : MaskedImage) : MaskedImage :=
  { a with pixels := List.zipWith (fun x y => x - y) a.pixels b.pixels,
           variance := List.zipWith (fun x y => x + y) a.variance b.variance,
           mask := List.zipWith (fun x y => x ||| y) a.mask b.mask }

/-- `lsst::pex::policy::Policy` leaf: string-valued and double-valued
configuration keys. -/
structure Policy where
  stringVals : List (String × String)
  doubleVals : List (String × ℚ)
deriving DecidableEq, Repr

/-- A policy with named sub-policies (`isrPolicy` holding `darkPolicy`). -/
structure TopPolicy where
  policies : List (String × Policy)
deriving DecidableEq, Repr

/-- `Policy::getPolicy(name)`: absent sub-policy is a NameNotFound
failure (spec §6: propagated as MissingConfiguration). -/
def getPolicy (p : TopPolicy) (k : String) : Except IsrError Policy :=
  match p.policies.find? (fun kv => kv.1 == k) with
  | some kv => Except.ok kv.2
  | none => Except.error (IsrError.nameNotFound k)

/-- `Policy::getString(name)`: absent key is a NameNotFound failure. -/
def getString (pol : Policy) (k : String) : Except IsrError String :=
  match pol.stringVals.find? (fun kv => kv.1 == k) with
  | some kv => Except.ok kv.2
  | none => Except.error (IsrError.nameNotFound k)

/-- `Policy::getDouble(name)`: absent key is a NameNotFound failure. -/
def getDouble (pol : Policy) (k : String) : Except IsrError ℚ :=
  match pol.doubleVals.find? (fun kv => kv.1 == k) with
  | some kv => Except.ok kv.2
  | none => Except.error (IsrError.nameNotFound k)

/-- Message of the idempotency-gate `Runtime` throw (source line 83). -/
def alreadyMsg : String := "Dark Current Subtraction previously performed."

/-- Message of the size-check `LengthError` throw (source line 96). -/
def sizeMsg : String :=
  "In darkCurrentCorrectChunkExposure: Chunk Exposure and Master Bias Chunk Exposure are not the same size."

/-- Message of the `NotFound` throw for AMPID missing on the chunk (line 111). -/
def ampidChunkMsg : String :=
  "In darkCurrentCorrectChunkExposure: Could not get AMPID from the Chunk Metadata."

/-- Message of the `NotFound` throw for AMPID missing on the master (line 119). -/
def ampidMasterMsg : String :=
  "In darkCurrentCorrectChunkExposure: Could not get AMPID from the Master Dark Current Chunk Metadata."

/-- Message of the `NotFound` throw for CCDID missing on the chunk (line 131). -/
def ccdidChunkMsg : String :=
  "In darkCurrentCorrectChunkExposure: Could not get CCDID from the Chunk Metadata."

/-- Message of the `NotFound` throw for CCDID missing on the master (line 139). -/
def ccdidMasterMsg : String :=
  "In darkCurrentCorrectChunkExposure: Could not get CCDID from the Master Dark Current Chunk Metadata."

/-- Message of the `RangeError` identity throw (lines 123 and 143). -/
def identityMsg : String :=
  "In darkCurrentCorrectChunkExposure: Chunk Exposure and Master Dark Current Chunk Exposure are not derived from the same pixels."

/-- Message of the `NotFound` throw for EXPTIME missing on the chunk (line 157). -/
def exptimeChunkMsg : String :=
  "In darkCurrentCorrectChunkExposure: Could not get EXPTIME from Chunk Metadata."

/-- Message of the `NotFound` throw for EXPTIME missing on the master (line 165). -/
def exptimeMasterMsg : String :=
  "In darkCurrentCorrectChunkExposure: Could not get EXPTIME from Master Dark Current Chunk Metadata."

/-- The "derived from the same pixels" identity block, source lines
105-148: dispatch on `chunkType`; `"amp"` compares `AMPID` (exact
`int` casts), `"ccd"` compares `CCDID`; any other value is the
unimplemented raft-level branch, which does nothing. -/
def identityCheck (chunkType : String) (chunkMetadata masterChunkMetadata : Metadata) :
    Except IsrError Unit :=
  if chunkType = "amp" then
    match findUnique chunkMetadata "AMPID" with
    | none => Except.error (IsrError.notFound ampidChunkMsg)
    | some v =>
      match anyCastInt v with
      | Except.error e => Except.error e
      | Except.ok ampid =>
        match findUnique masterChunkMetadata "AMPID" with
        | none => Except.error (IsrError.notFound ampidMasterMsg)
        | some mv =>
          match anyCastInt mv with
          | Except.error e => Except.error e
          | Except.ok mampid =>
            if ampid ≠ mampid then Except.error (IsrError.rangeError identityMsg)
            else Except.ok ()
  else if chunkType = "ccd" then
    match findUnique chunkMetadata "CCDID" with
    | none => Except.error (IsrError.notFound ccdidChunkMsg)
    | some v =>
      match anyCastInt v with
      | Except.error e => Except.error e
      | Except.ok ccdid =>
        match findUnique masterChunkMetadata "CCDID" with
        | none => Except.error (IsrError.notFound ccdidMasterMsg)
        | some mv =>
          match anyCastInt mv with
          | Except.error e => Except.error e
          | Except.ok mccdid =>
            if ccdid ≠ mccdid then Except.error (IsrError.rangeError identityMsg)
            else Except.ok ()
  else
    Except.ok ()

/-- The scaling of the master masked image, source lines 172-185: if
the two exposure times differ, multiply by `exptime / mexptime`
(line 174-177); then, if `darkScale` is non-zero (C++ truthiness of a
`double`), multiply by `darkScale` (line 184-185).  Both
multiplications are applied to the master masked image itself (the
shallow `getMaskedImage()` copy), so this is the master's state from
the scaling onwards. -/
def scaledMaster (m : MaskedImage) (exptime mexptime darkScale : ℚ) : MaskedImage :=
  let m1 := if exptime ≠ mexptime then scaleMaskedImage m (exptime / mexptime) else m
  if darkScale ≠ 0 then scaleMaskedImage m1 darkScale else m1

/-- The provenance entry written on success (source lines 192-195). -/
def provEntry : String × MetaValue :=
  ("ISR_DARKCOR", MetaValue.vString "Completed Successfully")

/-- `lsst::ip::isr::darkCurrentCorrectChunkExposure`, the whole
sub-stage.  Control flow follows the source line by line:
idempotency gate (80-84), size check (89-97), `darkPolicy` /
`chunkType` configuration reads (102-103), identity check (105-148),
EXPTIME reads with exact `float` casts (152-166), `darkScale`
configuration read (170), master scaling (172-185), subtraction
(186-188), provenance write and `setMetadata` (192-197).  An
`Except.error` models a C++ throw before any mutation of the operands;
`Except.ok (chunk, master)` returns the final states of the two
(aliased, in-place mutated) masked images. -/
def darkCurrentCorrectChunkExposure
    (chunkExposure masterChunkExposure : MaskedImage)
    (isrPolicy datasetPolicy : TopPolicy) :
    Except IsrError (MaskedImage × MaskedImage) :=
  match findUnique chunkExposure.metadata "ISR_DARKCOR" with
  | some _ => Except.error (IsrError.runtime alreadyMsg)
  | none =>
    if chunkExposure.cols ≠ masterChunkExposure.cols ∨
       chunkExposure.rows ≠ masterChunkExposure.rows then
      Except.error (IsrError.lengthError sizeMsg)
    else
      match getPolicy isrPolicy "darkPolicy" with
      | Except.error e => Except.error e
      | Except.ok darkPolicy =>
        match getString darkPolicy "chunkType" with
        | Except.error e => Except.error e
        | Except.ok chunkType =>
          match identityCheck chunkType chunkExposure.metadata masterChunkExposure.metadata with
          | Except.error e => Except.error e
          | Except.ok _ =>
            match findUnique chunkExposure.metadata "EXPTIME" with
            | none => Except.error (IsrError.notFound exptimeChunkMsg)
            | some v =>
              match anyCastFloat v with
              | Except.error e => Except.error e
              | Except.ok exptime =>
                match findUnique masterChunkExposure.metadata "EXPTIME" with
                | none => Except.error (IsrError.notFound exptimeMasterMsg)
                | some mv =>
                  match anyCastFloat mv with
                  | Except.error e => Except.error e
                  | Except.ok mexptime =>
                    match getDouble darkPolicy "darkScale" with
                    | Except.error e => Except.error e
                    | Except.ok darkScale =>
                      let masterFinal := scaledMaster masterChunkExposure exptime mexptime darkScale
                      let chunkSub := subtractMaskedImage chunkExposure masterFinal
                      Except.ok
                        ({ chunkSub with metadata := addProperty chunkSub.metadata provEntry },
                         masterFinal)

/-- The effective multiplier applied to the reference pixel plane
before subtraction, as a single constant: time scale
`exptime / mexptime` when the durations differ, times `darkScale`
when that is non-zero. -/
def effMult (exptime mexptime darkScale : ℚ) : ℚ :=
  (if exptime ≠ mexptime then exptime / mexptime else 1) *
    (if darkScale ≠ 0 then darkScale else 1)

theorem anyCastFloat_ok {v : MetaValue} {q : ℚ} (h : anyCastFloat v = Except.ok q) :
    v = MetaValue.vFloat q := by
  cases v <;> simp [anyCastFloat] at h <;> simp [h]

theorem scaledMaster_pixels (m : MaskedImage) (e me ds : ℚ) :
    (scaledMaster m e me ds).pixels = m.pixels.map (fun x => x * effMult e me ds) := by
  unfold scaledMaster effMult scaleMaskedImage
  by_cases h1 : e ≠ me <;> by_cases h2 : ds ≠ 0 <;>
    simp [h1, h2, List.map_map, Function.comp, mul_assoc]

theorem zipWith_sub_map_right (s : ℚ) (xs ys : List ℚ) :
    List.zipWith (fun x y => x - y) xs (ys.map (fun y => y * s)) =
      List.zipWith (fun x y => x - s * y) xs ys := by
  induction xs generalizing ys with
  | nil => simp
  | cons x xs ih =>
    cases ys with
    | nil => simp
    | cons y ys =>
      simp only [List.map_cons, List.zipWith_cons_cons]
      rw [ih, mul_comm]

theorem findUnique_append_self (md : Metadata) (k : String) (v : MetaValue)
    (h : findUnique md k = none) : findUnique (md ++ [(k, v)]) k = some v := by
  unfold findUnique at *
  have hf : List.find? (fun kv => kv.1 == k) md = none := by
    cases hx : List.find? (fun kv => kv.1 == k) md with
    | none => rfl
    | some kv => rw [hx] at h; simp at h
  rw [List.find?_append, hf]
  simp [List.find?]

/-- Forward evaluation: when every check passes, the sub-stage returns
the subtracted chunk with the provenance entry appended, and the
(in-place scaled) master. -/
theorem darkCorrect_ok_eq
    (c m : MaskedImage) (p d : TopPolicy) (dp : Policy) (ct : String) (e me ds : ℚ)
    (hg : findUnique c.metadata "ISR_DARKCOR" = none)
    (hc : c.cols = m.cols) (hr : c.rows = m.rows)
    (hp : getPolicy p "darkPolicy" = Except.ok dp)
    (hct : getString dp "chunkType" = Except.ok ct)
    (hid : identityCheck ct c.metadata m.metadata = Except.ok ())
    (he : findUnique c.metadata "EXPTIME" = some (MetaValue.vFloat e))
    (hme : findUnique m.metadata "EXPTIME" = some (MetaValue.vFloat me))
    (hds : getDouble dp "darkScale" = Except.ok ds) :
    darkCurrentCorrectChunkExposure c m p d =
      Except.ok
        ({ subtractMaskedImage c (scaledMaster m e me ds) with
            metadata := addProperty c.metadata provEntry },
         scaledMaster m e me ds) := by
  unfold darkCurrentCorrectChunkExposure
  simp only [hg, hp, hct, hid, he, hme, hds, anyCastFloat, hc, hr, ne_eq,
    not_true_eq_false, or_self, if_false]
  rfl

/-- Inversion: a successful run implies every check passed, identifies
all the values read, and fixes both output images. -/
theorem darkCorrect_ok_inv
    {c m c' m' : MaskedImage} {p d : TopPolicy}
    (h : darkCurrentCorrectChunkExposure c m p d = Except.ok (c', m')) :
    ∃ (dp : Policy) (ct : String) (e me ds : ℚ),
      findUnique c.metadata "ISR_DARKCOR" = none ∧
      c.cols = m.cols ∧ c.rows = m.rows ∧
      getPolicy p "darkPolicy" = Except.ok dp ∧
      getString dp "chunkType" = Except.ok ct ∧
      identityCheck ct c.metadata m.metadata = Except.ok () ∧
      findUnique c.metadata "EXPTIME" = some (MetaValue.vFloat e) ∧
      findUnique m.metadata "EXPTIME" = some (MetaValue.vFloat me) ∧
      getDouble dp "darkScale" = Except.ok ds ∧
      m' = scaledMaster m e me ds ∧
      c' = { subtractMaskedImage c (scaledMaster m e me ds) with
             metadata := addProperty c.metadata provEntry } := by
  unfold darkCurrentCorrectChunkExposure at h
  split at h
  · exact absurd h (by simp)
  next hg =>
  split at h
  · exact absurd h (by simp)
  next hdim =>
  push_neg at hdim
  split at h
  · exact absurd h (by simp)
  next dp hp =>
  split at h
  · exact absurd h (by simp)
  next ct hct =>
  split at h
  · exact absurd h (by simp)
  next u hid =>
  split at h
  · exact absurd h (by simp)
  next v hv =>
  split at h
  · exact absurd h (by simp)
  next e hcast =>
  split at h
  · exact absurd h (by simp)
  next mv hmv =>
  split at h
  · exact absurd h (by simp)
  next me hmcast =>
  split at h
  · exact absurd h (by simp)
  next ds hds =>
  simp only [Except.ok.injEq, Prod.mk.injEq] at h
  refine ⟨dp, ct, e, me, ds, hg, hdim.1, hdim.2, hp, hct, ?_, ?_, ?_, hds, h.2.symm, h.1.symm⟩
  · cases u; exact hid
  · rw [hv, anyCastFloat_ok hcast]
  · rw [hmv, anyCastFloat_ok hmcast]

/-- Whether a run of the sub-stage succeeded. -/
def isOkResult : Except IsrError (MaskedImage × MaskedImage) → Bool
  | Except.ok _ => true
  | Except.error _ => false

/-- Sample chunk exposure: 1x1, pixel 5, EXPTIME 30 (stored as float). -/
def wChunk : MaskedImage :=
  { cols := 1, rows := 1, pixels := [5], variance := [0], mask := [0],
    metadata := [("EXPTIME", MetaValue.vFloat 30)] }

/-- Sample master dark exposure: 1x1, pixel 1, EXPTIME 15. -/
def wMaster : MaskedImage :=
  { cols := 1, rows := 1, pixels := [1], variance := [0], mask := [0],
    metadata := [("EXPTIME", MetaValue.vFloat 15)] }

/-- Sample dark policy: raft-level chunkType, darkScale 0. -/
def wDark : Policy :=
  { stringVals := [("chunkType", "raft")], doubleVals := [("darkScale", 0)] }

/-- Sample ISR policy holding `wDark` as its darkPolicy. -/
def wTop : TopPolicy := { policies := [("darkPolicy", wDark)] }

/-- An empty policy (used as the unused datasetPolicy argument). -/
def emptyTop : TopPolicy := { policies := [] }

/-- Expected chunk output for the `wChunk`/`wMaster` run. -/
def wOutChunk : MaskedImage :=
  { subtractMaskedImage wChunk (scaledMaster wMaster 30 15 0) with
    metadata := addProperty wChunk.metadata provEntry }

/-- Expected master output for the `wChunk`/`wMaster` run. -/
def wOutMaster : MaskedImage := scaledMaster wMaster 30 15 0

/-- C1: for every chunk/reference pair that passes the idempotency,
geometry and identity checks (i.e. every successful run), the corrected
chunk pixel plane equals `chunkPixel - m * referencePixel` element-wise,
where the effective multiplier `m` is `timeScale * darkScale` when the
two EXPTIME values differ and `darkScale` is non-zero,
`timeScale = chunkExptime / referenceExptime` alone when only the
durations differ, `darkScale` alone when only `darkScale` is non-zero,
and `1` when neither applies (so the time-scaling multiplication is
skipped when the durations are equal).  The witness checks the
particular instance chunk EXPTIME 30, reference EXPTIME 15,
darkScale 0, whose multiplier is 30/15 = 2. -/
theorem darkCorrect_effective_multiplier
    (c m c' m' : MaskedImage) (p d : TopPolicy) (dp : Policy) (e me ds : ℚ)
    (hp : getPolicy p "darkPolicy" = Except.ok dp)
    (he : findUnique c.metadata "EXPTIME" = some (MetaValue.vFloat e))
    (hme : findUnique m.metadata "EXPTIME" = some (MetaValue.vFloat me))
    (hds : getDouble dp "darkScale" = Except.ok ds)
    (hok : darkCurrentCorrectChunkExposure c m p d = Except.ok (c', m')) :
    c'.pixels = List.zipWith (fun a b => a - effMult e me ds * b) c.pixels m.pixels ∧
    (e ≠ me → ds ≠ 0 → effMult e me ds = e / me * ds) ∧
    (e ≠ me → ds = 0 → effMult e me ds = e / me) ∧
    (e = me → ds ≠ 0 → effMult e me ds = ds) ∧
    (e = me → ds = 0 → effMult e me ds = 1) := by
  obtain ⟨dp', ct', e', me', ds', _, _, _, hp', _, _, he', hme', hds', _, hcOut⟩ :=
    darkCorrect_ok_inv hok
  have hdp : dp' = dp := by have := hp'.symm.trans hp; simpa using this
  subst hdp
  have hee : e' = e := by have := he'.symm.trans he; simpa using this
  have hmee : me' = me := by have := hme'.symm.trans hme; simpa using this
  have hdss : ds' = ds := by have := hds'.symm.trans hds; simpa using this
  rw [hee, hmee, hdss] at hcOut
  refine ⟨?_, ?_, ?_, ?_, ?_⟩
  · rw [hcOut]
    show (subtractMaskedImage c (scaledMaster m e me ds)).pixels = _
    unfold subtractMaskedImage
    rw [scaledMaster_pixels, zipWith_sub_map_right]
  · intro h1 h2; simp [effMult, h1, h2]
  · intro h1 h2; simp [effMult, h1, h2]
  · intro h1 h2; simp [effMult, h1, h2]
  · intro h1 h2; simp [effMult, h1, h2]

/-- Witness for C1: the 30/15, darkScale 0 instance at a concrete
1x1 image pair. -/
theorem darkCorrect_effective_multiplier_witness :
    darkCurrentCorrectChunkExposure wChunk wMaster wTop emptyTop =
      Except.ok (wOutChunk, wOutMaster) ∧
    wOutChunk.pixels =
      List.zipWith (fun a b => a - effMult 30 15 0 * b) wChunk.pixels wMaster.pixels ∧
    ((30:ℚ) ≠ 15 → (0:ℚ) = 0 → effMult 30 15 0 = 30 / 15) := by
  have hok : darkCurrentCorrectChunkExposure wChunk wMaster wTop emptyTop =
      Except.ok (wOutChunk, wOutMaster) :=
    darkCorrect_ok_eq wChunk wMaster wTop emptyTop wDark "raft" 30 15 0
      rfl rfl rfl rfl rfl rfl rfl rfl rfl
  have main := darkCorrect_effective_multiplier wChunk wMaster wOutChunk wOutMaster
    wTop emptyTop wDark 30 15 0 rfl rfl rfl rfl hok
  exact ⟨hok, main.1, main.2.2.1⟩

/-- C2: a chunk whose metadata already contains ISR_DARKCOR is rejected
immediately with the AlreadyCorrected (`Runtime`) error, with no
mutation (an `Except.error` result leaves the caller's images
untouched in this embedding); consequently a second correction of an
already-corrected chunk fails with the same error, whatever master and
policies it is given, so the rejected second attempt leaves the pixel
data exactly as the first attempt did. -/
theorem darkCorrect_idempotency :
    (∀ (c m : MaskedImage) (p d : TopPolicy) (v : MetaValue),
        findUnique c.metadata "ISR_DARKCOR" = some v →
        darkCurrentCorrectChunkExposure c m p d =
          Except.error (IsrError.runtime alreadyMsg)) ∧
    (∀ (c m c' m' m₂ : MaskedImage) (p d p₂ d₂ : TopPolicy),
        darkCurrentCorrectChunkExposure c m p d = Except.ok (c', m') →
        darkCurrentCorrectChunkExposure c' m₂ p₂ d₂ =
          Except.error (IsrError.runtime alreadyMsg)) := by
  have gate : ∀ (c m : MaskedImage) (p d : TopPolicy) (v : MetaValue),
      findUnique c.metadata "ISR_DARKCOR" = some v →
      darkCurrentCorrectChunkExposure c m p d =
        Except.error (IsrError.runtime alreadyMsg) := by
    intro c m p d v hv
    unfold darkCurrentCorrectChunkExposure
    rw [hv]
  refine ⟨gate, ?_⟩
  intro c m c' m' m₂ p d p₂ d₂ hok
  obtain ⟨dp, ct, e, me, ds, hg, _, _, _, _, _, _, _, _, _, hcOut⟩ := darkCorrect_ok_inv hok
  have hfind : findUnique c'.metadata "ISR_DARKCOR" =
      some (MetaValue.vString "Completed Successfully") := by
    rw [hcOut]
    exact findUnique_append_self c.metadata _ _ hg
  exact gate c' m₂ p₂ d₂ _ hfind

/-- Witness for C2: the concrete run of the C1 witness succeeds, and a
second run on its output chunk is rejected with the Runtime error. -/
theorem darkCorrect_idempotency_witness :
    darkCurrentCorrectChunkExposure wOutChunk wMaster wTop emptyTop =
      Except.error (IsrError.runtime alreadyMsg) ∧
    darkCurrentCorrectChunkExposure
        { wChunk with metadata := [("ISR_DARKCOR", MetaValue.vString "x")] }
        wMaster wTop emptyTop =
      Except.error (IsrError.runtime alreadyMsg) := by
  constructor
  · exact darkCorrect_idempotency.2 wChunk wMaster wOutChunk wOutMaster wMaster
      wTop emptyTop wTop emptyTop
      (darkCorrect_ok_eq wChunk wMaster wTop emptyTop wDark "raft" 30 15 0
        rfl rfl rfl rfl rfl rfl rfl rfl rfl)
  · exact darkCorrect_idempotency.1 _ wMaster wTop emptyTop
      (MetaValue.vString "x") rfl

/-- C3 (code bug witness): the master reference is NOT read-only.  The
source scales the shallow `getMaskedImage()` copy of the master in
place (lines 176 and 185), so a successful correction with differing
EXPTIME values mutates the shared master: here the master pixel plane
goes from [1] to [2]. -/
theorem darkCorrect_master_mutated_in_place :
    darkCurrentCorrectChunkExposure wChunk wMaster wTop emptyTop =
      Except.ok (wOutChunk, wOutMaster) ∧
    wOutMaster.pixels = [2] ∧ wMaster.pixels = [1] ∧ wOutMaster.pixels ≠ wMaster.pixels := by
  refine ⟨darkCorrect_ok_eq wChunk wMaster wTop emptyTop wDark "raft" 30 15 0
      rfl rfl rfl rfl rfl rfl rfl rfl rfl, ?_, rfl, ?_⟩
  · show (scaledMaster wMaster 30 15 0).pixels = [2]
    rw [scaledMaster_pixels]
    show [(1:ℚ) * effMult 30 15 0] = [2]
    norm_num [effMult]
  · show (scaledMaster wMaster 30 15 0).pixels ≠ [1]
    rw [scaledMaster_pixels]
    show [(1:ℚ) * effMult 30 15 0] ≠ [1]
    norm_num [effMult]

/-- C4 (amended): on unequal pixel-plane dimensions (in either the
column or the row count) the correction fails with the
DimensionMismatch (`LengthError`) error before any pixel is touched
(an error result leaves the operands unmutated in this embedding), and
dimension equality is exact-match only.  Amendment: the error report is
the fixed message `sizeMsg`, which does NOT contain the two sizes (see
the counterexample). -/
theorem darkCorrect_dimension_mismatch
    (c m : MaskedImage) (p d : TopPolicy)
    (hg : findUnique c.metadata "ISR_DARKCOR" = none)
    (hne : c.cols ≠ m.cols ∨ c.rows ≠ m.rows) :
    darkCurrentCorrectChunkExposure c m p d =
      Except.error (IsrError.lengthError sizeMsg) := by
  unfold darkCurrentCorrectChunkExposure
  rw [hg, if_pos hne]

/-- A master image with the same columns as `wMaster` but a different
row count (1x1 versus 2x1 pixel grid of the chunk below). -/
def c4Chunk : MaskedImage :=
  { cols := 1, rows := 2, pixels := [5, 6], variance := [0, 0], mask := [0, 0],
    metadata := [("EXPTIME", MetaValue.vFloat 30)] }

/-- Counterexample for C4 as stated: with chunk 1x2 and master 1x1 the
correction fails with the `LengthError`, but its report is a fixed
string containing no digit character at all, hence not the two sizes. -/
theorem darkCorrect_dimension_report_counterexample :
    darkCurrentCorrectChunkExposure c4Chunk wMaster wTop emptyTop =
      Except.error (IsrError.lengthError sizeMsg) ∧
    sizeMsg.toList.all (fun ch => !ch.isDigit) = true ∧
    c4Chunk.rows = 2 ∧ wMaster.rows = 1 := by
  refine ⟨rfl, by decide, rfl, rfl⟩

/-- Witness for C4 (amended theorem) at the same concrete input. -/
theorem darkCorrect_dimension_mismatch_witness :
    darkCurrentCorrectChunkExposure c4Chunk wMaster wTop emptyTop =
      Except.error (IsrError.lengthError sizeMsg) :=
  darkCorrect_dimension_mismatch c4Chunk wMaster wTop emptyTop rfl (Or.inr (by decide))

set_option maxRecDepth 20000 in
/-- C5: with chunkType "amp" (and analogously "ccd" with the CCDID
key): a missing AMPID on either side fails with the MissingMetadata
(`NotFound`) error whose message names that side and the key (the
infix conjuncts check this textually); present but unequal values fail
with the IdentityMismatch (`RangeError`) error; present and equal
values pass the check, and the correction then proceeds (final
conjunct: a full run succeeds). -/
theorem darkCorrect_identity_matcher :
    (∀ (cm mm : Metadata), findUnique cm "AMPID" = none →
        identityCheck "amp" cm mm = Except.error (IsrError.notFound ampidChunkMsg)) ∧
    (∀ (cm mm : Metadata) (a : Int), findUnique cm "AMPID" = some (MetaValue.vInt a) →
        findUnique mm "AMPID" = none →
        identityCheck "amp" cm mm = Except.error (IsrError.notFound ampidMasterMsg)) ∧
    (∀ (cm mm : Metadata) (a b : Int), findUnique cm "AMPID" = some (MetaValue.vInt a) →
        findUnique mm "AMPID" = some (MetaValue.vInt b) → a ≠ b →
        identityCheck "amp" cm mm = Except.error (IsrError.rangeError identityMsg)) ∧
    (∀ (cm mm : Metadata) (a : Int), findUnique cm "AMPID" = some (MetaValue.vInt a) →
        findUnique mm "AMPID" = some (MetaValue.vInt a) →
        identityCheck "amp" cm mm = Except.ok ()) ∧
    (∀ (cm mm : Metadata), findUnique cm "CCDID" = none →
        identityCheck "ccd" cm mm = Except.error (IsrError.notFound ccdidChunkMsg)) ∧
    (∀ (cm mm : Metadata) (a : Int), findUnique cm "CCDID" = some (MetaValue.vInt a) →
        findUnique mm "CCDID" = none →
        identityCheck "ccd" cm mm = Except.error (IsrError.notFound ccdidMasterMsg)) ∧
    (∀ (cm mm : Metadata) (a b : Int), findUnique cm "CCDID" = some (MetaValue.vInt a) →
        findUnique mm "CCDID" = some (MetaValue.vInt b) → a ≠ b →
        identityCheck "ccd" cm mm = Except.error (IsrError.rangeError identityMsg)) ∧
    (∀ (cm mm : Metadata) (a : Int), findUnique cm "CCDID" = some (MetaValue.vInt a) →
        findUnique mm "CCDID" = some (MetaValue.vInt a) →
        identityCheck "ccd" cm mm = Except.ok ()) ∧
    ("AMPID".toList <:+: ampidChunkMsg.toList ∧
      "Chunk Metadata".toList <:+: ampidChunkMsg.toList) ∧
    ("AMPID".toList <:+: ampidMasterMsg.toList ∧
      "Master Dark Current Chunk Metadata".toList <:+: ampidMasterMsg.toList) ∧
    (∀ (c m : MaskedImage) (p d : TopPolicy) (dp : Policy) (e me ds : ℚ) (a : Int),
        findUnique c.metadata "ISR_DARKCOR" = none →
        c.cols = m.cols → c.rows = m.rows →
        getPolicy p "darkPolicy" = Except.ok dp →
        getString dp "chunkType" = Except.ok "amp" →
        findUnique c.metadata "AMPID" = some (MetaValue.vInt a) →
        findUnique m.metadata "AMPID" = some (MetaValue.vInt a) →
        findUnique c.metadata "EXPTIME" = some (MetaValue.vFloat e) →
        findUnique m.metadata "EXPTIME" = some (MetaValue.vFloat me) →
        getDouble dp "darkScale" = Except.ok ds →
        darkCurrentCorrectChunkExposure c m p d =
          Except.ok ({ subtractMaskedImage c (scaledMaster m e me ds) with
                        metadata := addProperty c.metadata provEntry },
                     scaledMaster m e me ds)) := by
  refine ⟨?_, ?_, ?_, ?_, ?_, ?_, ?_, ?_, ⟨by decide, by decide⟩, ⟨by decide, by decide⟩, ?_⟩
  · intro cm mm h; unfold identityCheck; simp [h]
  · intro cm mm a h hm; unfold identityCheck; simp [h, hm, anyCastInt]
  · intro cm mm a b h hm hne; unfold identityCheck; simp [h, hm, anyCastInt, hne]
  · intro cm mm a h hm; unfold identityCheck; simp [h, hm, anyCastInt]
  · intro cm mm h; unfold identityCheck; simp [h]
  · intro cm mm a h hm; unfold identityCheck; simp [h, hm, anyCastInt]
  · intro cm mm a b h hm hne; unfold identityCheck; simp [h, hm, anyCastInt, hne]
  · intro cm mm a h hm; unfold identityCheck; simp [h, hm, anyCastInt]
  · intro c m p d dp e me ds a hg hc hr hp hct hca hma he hme hds
    have hid : identityCheck "amp" c.metadata m.metadata = Except.ok () := by
      unfold identityCheck; simp [hca, hma, anyCastInt]
    exact darkCorrect_ok_eq c m p d dp "amp" e me ds hg hc hr hp hct hid he hme hds

/-- Chunk metadata sample with an amplifier identity. -/
def aChunk : MaskedImage :=
  { cols := 1, rows := 1, pixels := [9], variance := [0], mask := [0],
    metadata := [("AMPID", MetaValue.vInt 3), ("EXPTIME", MetaValue.vFloat 20)] }

/-- Master sample with the same amplifier identity and EXPTIME. -/
def aMaster : MaskedImage :=
  { cols := 1, rows := 1, pixels := [4], variance := [0], mask := [0],
    metadata := [("AMPID", MetaValue.vInt 3), ("EXPTIME", MetaValue.vFloat 20)] }

/-- Amp-type dark policy with darkScale 2. -/
def aDark : Policy :=
  { stringVals := [("chunkType", "amp")], doubleVals := [("darkScale", 2)] }

/-- ISR policy holding `aDark`. -/
def aTop : TopPolicy := { policies := [("darkPolicy", aDark)] }

/-- Witness for C5: missing AMPID, AMPID 3 versus 7, and the claim's
equal-ID full run at concrete inputs. -/
theorem darkCorrect_identity_matcher_witness :
    identityCheck "amp" [] [] = Except.error (IsrError.notFound ampidChunkMsg) ∧
    identityCheck "amp" [("AMPID", MetaValue.vInt 3)] [("AMPID", MetaValue.vInt 7)] =
      Except.error (IsrError.rangeError identityMsg) ∧
    darkCurrentCorrectChunkExposure aChunk aMaster aTop emptyTop =
      Except.ok ({ subtractMaskedImage aChunk (scaledMaster aMaster 20 20 2) with
                    metadata := addProperty aChunk.metadata provEntry },
                 scaledMaster aMaster 20 20 2) := by
  refine ⟨darkCorrect_identity_matcher.1 [] [] rfl, ?_, ?_⟩
  · exact darkCorrect_identity_matcher.2.2.1 _ _ 3 7 rfl rfl (by decide)
  · exact darkCorrect_identity_matcher.2.2.2.2.2.2.2.2.2.2 aChunk aMaster aTop emptyTop
      aDark 20 20 2 3 rfl rfl rfl rfl rfl rfl rfl rfl rfl rfl

/-- C6: for every chunkType other than "amp" and "ccd" the identity
check is skipped entirely: it returns success for every pair of
metadata bags (so it neither raises an error nor depends on any
detector-identity metadata), and the correction proceeds to the
scaling and subtraction stages (second conjunct: a full run
succeeds). -/
theorem darkCorrect_identity_skipped :
    (∀ (ct : String), ct ≠ "amp" → ct ≠ "ccd" →
        ∀ (cm mm : Metadata), identityCheck ct cm mm = Except.ok ()) ∧
    (∀ (ct : String) (c m : MaskedImage) (p d : TopPolicy) (dp : Policy) (e me ds : ℚ),
        ct ≠ "amp" → ct ≠ "ccd" →
        findUnique c.metadata "ISR_DARKCOR" = none →
        c.cols = m.cols → c.rows = m.rows →
        getPolicy p "darkPolicy" = Except.ok dp →
        getString dp "chunkType" = Except.ok ct →
        findUnique c.metadata "EXPTIME" = some (MetaValue.vFloat e) →
        findUnique m.metadata "EXPTIME" = some (MetaValue.vFloat me) →
        getDouble dp "darkScale" = Except.ok ds →
        darkCurrentCorrectChunkExposure c m p d =
          Except.ok ({ subtractMaskedImage c (scaledMaster m e me ds) with
                        metadata := addProperty c.metadata provEntry },
                     scaledMaster m e me ds)) := by
  have hskip : ∀ (ct : String), ct ≠ "amp" → ct ≠ "ccd" →
      ∀ (cm mm : Metadata), identityCheck ct cm mm = Except.ok () := by
    intro ct h1 h2 cm mm
    unfold identityCheck
    simp [h1, h2]
  refine ⟨hskip, ?_⟩
  intro ct c m p d dp e me ds h1 h2 hg hc hr hp hct he hme hds
  exact darkCorrect_ok_eq c m p d dp ct e me ds hg hc hr hp hct
    (hskip ct h1 h2 c.metadata m.metadata) he hme hds

/-- Witness for C6: chunkType "raft" at the concrete `wChunk` run. -/
theorem darkCorrect_identity_skipped_witness :
    identityCheck "raft" [("AMPID", MetaValue.vInt 1)] [("AMPID", MetaValue.vInt 2)] =
      Except.ok () ∧
    darkCurrentCorrectChunkExposure wChunk wMaster wTop emptyTop =
      Except.ok ({ subtractMaskedImage wChunk (scaledMaster wMaster 30 15 0) with
                    metadata := addProperty wChunk.metadata provEntry },
                 scaledMaster wMaster 30 15 0) := by
  constructor
  · exact darkCorrect_identity_skipped.1 "raft" (by decide) (by decide) _ _
  · exact darkCorrect_identity_skipped.2 "raft" wChunk wMaster wTop emptyTop wDark
      30 15 0 (by decide) (by decide) rfl rfl rfl rfl rfl rfl rfl rfl

/-- C7 (amended): a darkScale value of zero (present in the
configuration) means the darkScale factor is not applied: the
correction completes successfully and the reference working state is
only the (possibly time-scaled) master, with no darkScale
multiplication.  Amendment: an ABSENT darkScale key does not mean "not
applied" — `Policy::getDouble` fails on an absent key (spec section 6)
and the correction aborts with that MissingConfiguration
(`nameNotFound`) error instead of completing. -/
theorem darkCorrect_darkScale_zero_vs_absent :
    (∀ (c m : MaskedImage) (p d : TopPolicy) (dp : Policy) (ct : String) (e me : ℚ),
        findUnique c.metadata "ISR_DARKCOR" = none →
        c.cols = m.cols → c.rows = m.rows →
        getPolicy p "darkPolicy" = Except.ok dp →
        getString dp "chunkType" = Except.ok ct →
        identityCheck ct c.metadata m.metadata = Except.ok () →
        findUnique c.metadata "EXPTIME" = some (MetaValue.vFloat e) →
        findUnique m.metadata "EXPTIME" = some (MetaValue.vFloat me) →
        getDouble dp "darkScale" = Except.ok 0 →
        darkCurrentCorrectChunkExposure c m p d =
          Except.ok ({ subtractMaskedImage c (scaledMaster m e me 0) with
                        metadata := addProperty c.metadata provEntry },
                     scaledMaster m e me 0) ∧
        scaledMaster m e me 0 =
          (if e ≠ me then scaleMaskedImage m (e / me) else m)) ∧
    (∀ (c m : MaskedImage) (p d : TopPolicy) (dp : Policy) (ct : String) (e me : ℚ),
        findUnique c.metadata "ISR_DARKCOR" = none →
        c.cols = m.cols → c.rows = m.rows →
        getPolicy p "darkPolicy" = Except.ok dp →
        getString dp "chunkType" = Except.ok ct →
        identityCheck ct c.metadata m.metadata = Except.ok () →
        findUnique c.metadata "EXPTIME" = some (MetaValue.vFloat e) →
        findUnique m.metadata "EXPTIME" = some (MetaValue.vFloat me) →
        getDouble dp "darkScale" = Except.error (IsrError.nameNotFound "darkScale") →
        darkCurrentCorrectChunkExposure c m p d =
          Except.error (IsrError.nameNotFound "darkScale")) := by
  constructor
  · intro c m p d dp ct e me hg hc hr hp hct hid he hme hds
    refine ⟨darkCorrect_ok_eq c m p d dp ct e me 0 hg hc hr hp hct hid he hme hds, ?_⟩
    unfold scaledMaster
    simp
  · intro c m p d dp ct e me hg hc hr hp hct hid he hme hds
    unfold darkCurrentCorrectChunkExposure
    simp only [hg, hp, hct, hid, he, hme, hds, anyCastFloat, hc, hr, ne_eq,
      not_true_eq_false, or_self, if_false]

/-- Dark policy with chunkType but no darkScale key. -/
def c7Dark : Policy := { stringVals := [("chunkType", "raft")], doubleVals := [] }

/-- ISR policy holding `c7Dark`. -/
def c7Top : TopPolicy := { policies := [("darkPolicy", c7Dark)] }

/-- Counterexample for C7 as stated: with darkScale ABSENT from the
configuration (and every other input valid), the correction does not
complete successfully; it fails with the `nameNotFound` error. -/
theorem darkCorrect_darkScale_absent_counterexample :
    darkCurrentCorrectChunkExposure wChunk wMaster c7Top emptyTop =
      Except.error (IsrError.nameNotFound "darkScale") ∧
    isOkResult (darkCurrentCorrectChunkExposure wChunk wMaster c7Top emptyTop) = false := by
  exact ⟨rfl, rfl⟩

/-- Witness for C7 (amended theorem), both conjuncts at concrete
inputs: darkScale present-and-zero completes, darkScale absent fails. -/
theorem darkCorrect_darkScale_zero_vs_absent_witness :
    darkCurrentCorrectChunkExposure wChunk wMaster wTop emptyTop =
      Except.ok ({ subtractMaskedImage wChunk (scaledMaster wMaster 30 15 0) with
                    metadata := addProperty wChunk.metadata provEntry },
                 scaledMaster wMaster 30 15 0) ∧
    darkCurrentCorrectChunkExposure wChunk wMaster c7Top emptyTop =
      Except.error (IsrError.nameNotFound "darkScale") := by
  constructor
  · exact (darkCorrect_darkScale_zero_vs_absent.1 wChunk wMaster wTop emptyTop wDark
      "raft" 30 15 rfl rfl rfl rfl rfl rfl rfl rfl rfl).1
  · exact darkCorrect_darkScale_zero_vs_absent.2 wChunk wMaster c7Top emptyTop c7Dark
      "raft" 30 15 rfl rfl rfl rfl rfl rfl rfl rfl rfl

/-- C8: on every successful correction the chunk metadata gains exactly
one new entry, ISR_DARKCOR with value "Completed Successfully",
appended at the end (first conjunct: the output metadata is the input
metadata plus that single entry); a subsequent findUnique of
ISR_DARKCOR on the output returns the success marker (second
conjunct); and the provenance write is the last mutation: the output
pixel plane is exactly the subtraction-stage result, untouched by the
metadata write (third conjunct). -/
theorem darkCorrect_provenance
    (c m c' m' : MaskedImage) (p d : TopPolicy)
    (hok : darkCurrentCorrectChunkExposure c m p d = Except.ok (c', m')) :
    c'.metadata =
      c.metadata ++ [("ISR_DARKCOR", MetaValue.vString "Completed Successfully")] ∧
    findUnique c'.metadata "ISR_DARKCOR" =
      some (MetaValue.vString "Completed Successfully") ∧
    c'.pixels = (subtractMaskedImage c m').pixels := by
  obtain ⟨dp, ct, e, me, ds, hg, _, _, _, _, _, _, _, _, hmOut, hcOut⟩ :=
    darkCorrect_ok_inv hok
  refine ⟨by rw [hcOut]; rfl, ?_, by rw [hcOut, hmOut]⟩
  rw [hcOut]
  exact findUnique_append_self c.metadata _ _ hg

/-- Witness for C8 at the concrete `wChunk` run. -/
theorem darkCorrect_provenance_witness :
    wOutChunk.metadata =
      wChunk.metadata ++ [("ISR_DARKCOR", MetaValue.vString "Completed Successfully")] ∧
    findUnique wOutChunk.metadata "ISR_DARKCOR" =
      some (MetaValue.vString "Completed Successfully") ∧
    wOutChunk.pixels = (subtractMaskedImage wChunk wOutMaster).pixels :=
  darkCorrect_provenance wChunk wMaster wOutChunk wOutMaster wTop emptyTop
    (darkCorrect_ok_eq wChunk wMaster wTop emptyTop wDark "raft" 30 15 0
      rfl rfl rfl rfl rfl rfl rfl rfl rfl)

/-- C9: the division chunkExptime / referenceExptime is evaluated only
in the branch where the two EXPTIME values differ — when they are
equal (including both zero) the master is never time-scaled (first
conjunct: the scaled master is, for every darkScale, just the
darkScale stage applied to the unscaled master).  There is no guard on
the divisor: when the chunk EXPTIME is non-zero and the reference
EXPTIME is zero the run is NOT rejected with an error — it succeeds,
with the time scale computed as the division e / 0 (second conjunct;
in this rational-arithmetic embedding x / 0 = 0, whereas C++ float
division by zero yields infinity — either way, no error is raised). -/
theorem darkCorrect_division_by_zero_exptime :
    (∀ (m : MaskedImage) (e ds : ℚ),
        scaledMaster m e e ds = (if ds ≠ 0 then scaleMaskedImage m ds else m)) ∧
    (∀ (c m : MaskedImage) (p d : TopPolicy) (dp : Policy) (ct : String) (e ds : ℚ),
        e ≠ 0 →
        findUnique c.metadata "ISR_DARKCOR" = none →
        c.cols = m.cols → c.rows = m.rows →
        getPolicy p "darkPolicy" = Except.ok dp →
        getString dp "chunkType" = Except.ok ct →
        identityCheck ct c.metadata m.metadata = Except.ok () →
        findUnique c.metadata "EXPTIME" = some (MetaValue.vFloat e) →
        findUnique m.metadata "EXPTIME" = some (MetaValue.vFloat 0) →
        getDouble dp "darkScale" = Except.ok ds →
        darkCurrentCorrectChunkExposure c m p d =
          Except.ok ({ subtractMaskedImage c (scaledMaster m e 0 ds) with
                        metadata := addProperty c.metadata provEntry },
                     scaledMaster m e 0 ds) ∧
        (scaledMaster m e 0 ds).pixels =
          m.pixels.map (fun x => x * (e / 0 * (if ds ≠ 0 then ds else 1)))) := by
  constructor
  · intro m e ds
    unfold scaledMaster
    simp
  · intro c m p d dp ct e ds he0 hg hc hr hp hct hid he hme hds
    refine ⟨darkCorrect_ok_eq c m p d dp ct e 0 ds hg hc hr hp hct hid he hme hds, ?_⟩
    rw [scaledMaster_pixels]
    unfold effMult
    simp [he0]

/-- Master sample with EXPTIME zero. -/
def zMaster : MaskedImage :=
  { cols := 1, rows := 1, pixels := [1], variance := [0], mask := [0],
    metadata := [("EXPTIME", MetaValue.vFloat 0)] }

/-- Witness for C9: equal-duration skip on `wMaster`, and the zero
reference EXPTIME run succeeding at a concrete input. -/
theorem darkCorrect_division_by_zero_exptime_witness :
    scaledMaster wMaster 15 15 0 = (if (0:ℚ) ≠ 0 then scaleMaskedImage wMaster 0 else wMaster) ∧
    darkCurrentCorrectChunkExposure wChunk zMaster wTop emptyTop =
      Except.ok ({ subtractMaskedImage wChunk (scaledMaster zMaster 30 0 0) with
                    metadata := addProperty wChunk.metadata provEntry },
                 scaledMaster zMaster 30 0 0) := by
  constructor
  · exact darkCorrect_division_by_zero_exptime.1 wMaster 15 0
  · exact (darkCorrect_division_by_zero_exptime.2 wChunk zMaster wTop emptyTop wDark
      "raft" 30 0 (by decide) rfl rfl rfl rfl rfl rfl rfl rfl rfl).1

/-- The spec's section 7 error taxonomy, modelled from the spec's
words for comparison with the code's errors: AlreadyCorrected
(runtime), DimensionMismatch (lengthError), IdentityMismatch
(rangeError), MissingMetadata (notFound) and MissingConfiguration
(nameNotFound) are its five kinds; a boost bad_any_cast is not among
them. -/
def inSpecErrorTaxonomy : IsrError → Bool
  | IsrError.badAnyCast => false
  | _ => true

/-- C10: metadata values are read with exact-type casts (AMPID/CCDID
as int, EXPTIME as float).  Only the absence of a key produces the
MissingMetadata (`NotFound`) error (third conjunct); a present key
with a value of any other stored type — EXPTIME stored as a C++
double (first conjunct), AMPID stored as a string (second conjunct) —
fails with the boost `badAnyCast` failure, which is not one of the
five kinds of the spec's error taxonomy (last two conjuncts). -/
theorem darkCorrect_exact_type_casts :
    (∀ (c m : MaskedImage) (p d : TopPolicy) (dp : Policy) (ct : String) (q : ℚ),
        findUnique c.metadata "ISR_DARKCOR" = none →
        c.cols = m.cols → c.rows = m.rows →
        getPolicy p "darkPolicy" = Except.ok dp →
        getString dp "chunkType" = Except.ok ct →
        identityCheck ct c.metadata m.metadata = Except.ok () →
        findUnique c.metadata "EXPTIME" = some (MetaValue.vDouble q) →
        darkCurrentCorrectChunkExposure c m p d = Except.error IsrError.badAnyCast) ∧
    (∀ (cm mm : Metadata) (s : String),
        findUnique cm "AMPID" = some (MetaValue.vString s) →
        identityCheck "amp" cm mm = Except.error IsrError.badAnyCast) ∧
    (∀ (c m : MaskedImage) (p d : TopPolicy) (dp : Policy) (ct : String),
        findUnique c.metadata "ISR_DARKCOR" = none →
        c.cols = m.cols → c.rows = m.rows →
        getPolicy p "darkPolicy" = Except.ok dp →
        getString dp "chunkType" = Except.ok ct →
        identityCheck ct c.metadata m.metadata = Except.ok () →
        findUnique c.metadata "EXPTIME" = none →
        darkCurrentCorrectChunkExposure c m p d =
          Except.error (IsrError.notFound exptimeChunkMsg)) ∧
    inSpecErrorTaxonomy IsrError.badAnyCast = false ∧
    (∀ (msg : String), inSpecErrorTaxonomy (IsrError.notFound msg) = true) := by
  refine ⟨?_, ?_, ?_, rfl, fun _ => rfl⟩
  · intro c m p d dp ct q hg hc hr hp hct hid he
    unfold darkCurrentCorrectChunkExposure
    simp only [hg, hp, hct, hid, he, anyCastFloat, hc, hr, ne_eq,
      not_true_eq_false, or_self, if_false]
  · intro cm mm s h
    unfold identityCheck
    simp [h, anyCastInt]
  · intro c m p d dp ct hg hc hr hp hct hid he
    unfold darkCurrentCorrectChunkExposure
    simp only [hg, hp, hct, hid, he, hc, hr, ne_eq,
      not_true_eq_false, or_self, if_false]

/-- Chunk sample whose EXPTIME is stored as a C++ double. -/
def dChunk : MaskedImage :=
  { cols := 1, rows := 1, pixels := [5], variance := [0], mask := [0],
    metadata := [("EXPTIME", MetaValue.vDouble 30)] }

/-- Witness for C10: EXPTIME stored as double and AMPID stored as
string both fail with `badAnyCast` at concrete inputs. -/
theorem darkCorrect_exact_type_casts_witness :
    darkCurrentCorrectChunkExposure dChunk wMaster wTop emptyTop =
      Except.error IsrError.badAnyCast ∧
    identityCheck "amp" [("AMPID", MetaValue.vString "three")] [] =
      Except.error IsrError.badAnyCast ∧
    inSpecErrorTaxonomy IsrError.badAnyCast = false := by
  refine ⟨?_, ?_, ?_⟩
  · exact darkCorrect_exact_type_casts.1 dChunk wMaster wTop emptyTop wDark "raft" 30
      rfl rfl rfl rfl rfl rfl rfl
  · exact darkCorrect_exact_type_casts.2.1 _ [] "three" rfl
  · exact darkCorrect_exact_type_casts.2.2.2.1

end IpIsr
